import Mathlib

/-!
Shallow embedding of the LogSentry log pipeline
(`script/log_parse.py` and `script/log_download.py`).

Modelling conventions:

* A text file is a `List String` of its lines (each line given without its
  trailing newline, as for the final line of a file).
* A file that cannot be opened is `none : Option (List String)`; `open` raising
  `FileNotFoundError` is `Except.error PErr.fileNotFound`.
* Python list indexing `xs[i]` is `pyIdx`, which returns
  `Except.error PErr.indexError` when the index is out of range, as
  `list.__getitem__` raises `IndexError`.
* `str.split(c)` with a one-character separator is `pySplit1` (built on
  `List.splitOn`); with the two-character separators `", "` and `": "` it is
  `pySplit2`; `str.split(c, 1)` is `pySplitMax1`.  All keep empty chunks,
  exactly as Python `str.split` with an explicit separator does.
* `pd.to_datetime(col, format=..., errors="coerce")` is modelled per row by
  `parseAccessTs` (format `[%d/%b/%Y:%H:%M:%S`) and `parseErrorTs`
  (format `%Y/%m/%d %H:%M:%S`), which return `none` (pandas `NaT`) on a string
  that does not match the fixed format, and never fail.
* A pandas `DataFrame` of parsed rows is a `List` of records; `pd.concat`
  with `ignore_index=True` is list append; `DataFrame.to_csv(path)` is an
  overwriting write into an association-list file system (`fsWrite`).
-/

namespace LogSentry

/-- Python exceptions that the modelled code can raise. -/
inductive PErr where
  | indexError
  | fileNotFound
deriving Repr, DecidableEq

/-- Python list indexing `xs[i]`: raises `IndexError` when out of range. -/
def pyIdx (xs : List α) (i : Nat) : Except PErr α :=
  match xs.get? i with
  | some a => Except.ok a
  | none => Except.error PErr.indexError

@[simp] theorem pyIdx_nil (i : Nat) : pyIdx ([] : List α) i = Except.error PErr.indexError := by
  cases i <;> rfl

@[simp] theorem pyIdx_cons_zero (a : α) (xs : List α) : pyIdx (a :: xs) 0 = Except.ok a := rfl

@[simp] theorem pyIdx_cons_succ (a : α) (xs : List α) (i : Nat) :
    pyIdx (a :: xs) (i + 1) = pyIdx xs i := rfl

/-- `str.split(sep)` for a two-character separator `sep = c1c2` (Python keeps
empty chunks and scans left to right without overlap). -/
def split2 (c1 c2 : Char) : List Char → List (List Char)
  | [] => [[]]
  | [a] => [[a]]
  | a :: b :: rest =>
    if a = c1 ∧ b = c2 then [] :: split2 c1 c2 rest
    else (split2 c1 c2 (b :: rest)).modifyHead (List.cons a)

/-- `str.split(c)` for a one-character separator `c`. -/
def pySplit1 (c : Char) (s : String) : List String :=
  (s.data.splitOn c).map (fun l => String.mk l)

/-- `str.split(c1c2)` for a two-character separator. -/
def pySplit2 (c1 c2 : Char) (s : String) : List String :=
  (split2 c1 c2 s.data).map (fun l => String.mk l)

/-- `str.split(c, 1)`: split on the first occurrence only. -/
def pySplitMax1 (c : Char) (s : String) : List String :=
  match pySplit1 c s with
  | [x] => [x]
  | x :: rest => [x, String.intercalate (String.mk [c]) rest]
  | [] => []

/-- `str.strip(cs)`: remove the characters of `cs` from both ends. -/
def pyStripChars (cs : String) (s : String) : String :=
  String.mk (((s.data.dropWhile (fun c => c ∈ cs.data)).reverse.dropWhile
    (fun c => c ∈ cs.data)).reverse)

/-- `str.strip()`: remove whitespace from both ends. -/
def pyStrip (s : String) : String :=
  String.mk (((s.data.dropWhile Char.isWhitespace).reverse.dropWhile
    Char.isWhitespace).reverse)

/-- A parsed point in time (the value of a pandas `Timestamp` at second
precision, which is all the two fixed formats carry). -/
structure DateTime where
  year : Nat
  month : Nat
  day : Nat
  hour : Nat
  minute : Nat
  second : Nat
deriving Repr, DecidableEq

/-- Numeric value of a digit string. -/
def digitsVal (s : String) : Nat :=
  s.data.foldl (fun n c => n * 10 + (c.toNat - 48)) 0

/-- A field of `lo` to `hi` digits, as matched by a `strptime` directive. -/
def parseFixNat (lo hi : Nat) (s : String) : Option Nat :=
  if lo ≤ s.data.length ∧ s.data.length ≤ hi ∧ s.data.all Char.isDigit = true then
    some (digitsVal s)
  else none

/-- `%b`: abbreviated month name. -/
def monthOfAbbrev (s : String) : Option Nat :=
  if s = "Jan" then some 1 else if s = "Feb" then some 2
  else if s = "Mar" then some 3 else if s = "Apr" then some 4
  else if s = "May" then some 5 else if s = "Jun" then some 6
  else if s = "Jul" then some 7 else if s = "Aug" then some 8
  else if s = "Sep" then some 9 else if s = "Oct" then some 10
  else if s = "Nov" then some 11 else if s = "Dec" then some 12
  else none

def isLeapYear (y : Nat) : Bool :=
  y % 4 == 0 && (y % 100 != 0 || y % 400 == 0)

def daysInMonth (y m : Nat) : Nat :=
  if m = 2 then (if isLeapYear y then 29 else 28)
  else if m = 4 ∨ m = 6 ∨ m = 9 ∨ m = 11 then 30
  else 31

/-- Calendar-validating constructor, as `datetime.datetime` validates the
fields matched by `strptime`. -/
def mkDateTime (y mo d h mi s : Nat) : Option DateTime :=
  if 1 ≤ mo ∧ mo ≤ 12 ∧ 1 ≤ d ∧ d ≤ daysInMonth y mo ∧ h ≤ 23 ∧ mi ≤ 59 ∧ s ≤ 59 then
    some ⟨y, mo, d, h, mi, s⟩
  else none

/-- `pd.to_datetime(s, format="[%d/%b/%Y:%H:%M:%S", errors="coerce")` for one
cell: `none` is `NaT`. -/
def parseAccessTs (s : String) : Option DateTime :=
  match s.data with
  | '[' :: rest =>
    (match pySplit1 ':' (String.mk rest) with
     | [dpart, hs, ms, ss] =>
       (match pySplit1 '/' dpart with
        | [ds, mons, ys] => do
          let d ← parseFixNat 1 2 ds
          let mo ← monthOfAbbrev mons
          let y ← parseFixNat 1 4 ys
          let h ← parseFixNat 1 2 hs
          let mi ← parseFixNat 1 2 ms
          let sec ← parseFixNat 1 2 ss
          mkDateTime y mo d h mi sec
        | _ => none)
     | _ => none)
  | _ => none

/-- `pd.to_datetime(s, format="%Y/%m/%d %H:%M:%S", errors="coerce")` for one
cell: `none` is `NaT`. -/
def parseErrorTs (s : String) : Option DateTime :=
  match pySplit1 ' ' s with
  | [dpart, tpart] =>
    (match pySplit1 '/' dpart, pySplit1 ':' tpart with
     | [ys, mos, ds], [hs, ms, ss] => do
       let y ← parseFixNat 1 4 ys
       let mo ← parseFixNat 1 2 mos
       let d ← parseFixNat 1 2 ds
       let h ← parseFixNat 1 2 hs
       let mi ← parseFixNat 1 2 ms
       let sec ← parseFixNat 1 2 ss
       mkDateTime y mo d h mi sec
     | _, _ => none)
  | _ => none

/-- One row of the access-log DataFrame built by `parse_access_log_file`. -/
structure AccessRecord where
  ip : String
  datetime : Option DateTime
  request : Option String
  url : Option String
  status_code : String
  user_agent : List String
deriving Repr, DecidableEq

/-- The recognized HTTP methods (`requests` in the source). -/
def httpMethods : List String :=
  ["GET", "POST", "PUT", "DELETE", "PATCH", "HEAD", "OPTIONS", "CONNECT", "TRACE"]

/-- The `request`/`url`/`errors` decision of `parse_access_log_file`
(source lines 54-85), computed from `parts = line.split('"')`.  Returns
`(request, url, errors delta)` for the line. -/
def accessRule (parts : List String) : Option String × Option String × Nat :=
  if 1 < parts.length then
    let log_part := pySplit1 ' ' (parts.getD 1 "")
    if 1 < log_part.length then
      if log_part.headI ∈ httpMethods then
        (some log_part.headI, some (String.intercalate " " ((log_part.drop 1).dropLast)), 0)
      else
        (none, some (String.intercalate " " log_part), 1)
    else (none, none, 2)
  else (none, none, 2)

/-- The loop body of `parse_access_log_file` for one line: the record appended
to the six column lists, plus the increment of `errors`.  The unguarded
`parts[0].split(' ')[3]` and `parts[2].split(' ')[1]` (source lines 94 and 97)
can raise `IndexError`, which aborts the whole file parse. -/
def processAccessLine (line : String) : Except PErr (AccessRecord × Nat) := do
  let parts := pySplit1 '"' line
  let rule := accessRule parts
  let tok0 := pySplit1 ' ' parts.headI
  let dtTok ← pyIdx tok0 3
  let p2 ← pyIdx parts 2
  let sc ← pyIdx (pySplit1 ' ' p2) 1
  return ({ ip := tok0.headI, datetime := parseAccessTs dtTok, request := rule.1,
            url := rule.2.1, status_code := sc, user_agent := parts.drop 5 }, rule.2.2)

/-- `parse_access_log_file`: open the file (raising on a missing file) and fold
the per-line loop, producing the DataFrame rows and the final `errors` count. -/
def parse_access_log_file (file : Option (List String)) :
    Except PErr (List AccessRecord × Nat) :=
  match file with
  | none => Except.error PErr.fileNotFound
  | some lines =>
    lines.foldlM (fun acc line => do
      let rd ← processAccessLine line
      return (acc.1 ++ [rd.1], acc.2 + rd.2)) (([] : List AccessRecord), 0)

/-- One row of the error-log DataFrame built by `parse_error_log`. -/
structure ErrorRecord where
  date_time : Option DateTime
  error_level : String
  process_id : String
  message : String
  client_ip : String
  server : String
  request : String
  host : String
deriving Repr, DecidableEq

/-- The loop body of `parse_error_log` for one line (source lines 149-172):
every positional index past the first token is unguarded and can raise
`IndexError`. -/
def processErrorLine (line : String) : Except PErr ErrorRecord := do
  let parts := pySplit2 ',' ' ' line
  let tok := pySplit1 ' ' parts.headI
  let t1 ← pyIdx tok 1
  let dtStr := tok.headI ++ " " ++ t1
  let t2 ← pyIdx tok 2
  let t3 ← pyIdx tok 3
  let pid ← pyIdx (pySplit1 '#' t3) 1
  let p1 ← pyIdx parts 1
  let msgRaw ← pyIdx (pySplitMax1 ':' p1) 1
  let p2 ← pyIdx parts 2
  let cip ← pyIdx (pySplit2 ':' ' ' p2) 1
  let p3 ← pyIdx parts 3
  let srv ← pyIdx (pySplit2 ':' ' ' p3) 1
  let p4 ← pyIdx parts 4
  let req ← pyIdx (pySplit2 ':' ' ' p4) 1
  let p5 ← pyIdx parts 5
  let hst ← pyIdx (pySplit2 ':' ' ' p5) 1
  return { date_time := parseErrorTs dtStr, error_level := pyStripChars "[]" t2,
           process_id := pid, message := pyStrip msgRaw, client_ip := cip,
           server := srv, request := req, host := hst }

/-- `parse_error_log`: open the file and fold the per-line loop. -/
def parse_error_log (file : Option (List String)) : Except PErr (List ErrorRecord) :=
  match file with
  | none => Except.error PErr.fileNotFound
  | some lines =>
    lines.foldlM (fun acc line => do
      let r ← processErrorLine line
      return acc ++ [r]) ([] : List ErrorRecord)

/-! ## Aggregation and export (`parse_all_files`, source lines 192-229) -/

/-- The access loop of `parse_all_files`: parse each discovered file in order
and concatenate the rows (`pd.concat([...], ignore_index=True)`).  Any
exception from a per-file parse propagates and aborts the batch. -/
def all_access_records : List (Option (List String)) → Except PErr (List AccessRecord)
  | [] => Except.ok []
  | f :: rest => do
    let df ← parse_access_log_file f
    let more ← all_access_records rest
    return df.1 ++ more

/-- The error loop of `parse_all_files`. -/
def all_error_records : List (Option (List String)) → Except PErr (List ErrorRecord)
  | [] => Except.ok []
  | f :: rest => do
    let df ← parse_error_log f
    let more ← all_error_records rest
    return df ++ more

/-- A CSV file: header row plus data rows (`to_csv(..., index=False)`). -/
structure CsvFile where
  header : List String
  rows : List (List String)
deriving Repr, DecidableEq

def renderDt (dt : DateTime) : String :=
  toString dt.year ++ "-" ++ toString dt.month ++ "-" ++ toString dt.day ++ " " ++
    toString dt.hour ++ ":" ++ toString dt.minute ++ ":" ++ toString dt.second

def renderOptDt : Option DateTime → String
  | none => ""
  | some dt => renderDt dt

def renderOptStr : Option String → String
  | none => ""
  | some s => s

/-- One CSV row per access record (the exact cell text of the pandas CSV
writer is immaterial to the claims; one record becomes one row). -/
def accessCsvRow (r : AccessRecord) : List String :=
  [r.ip, renderOptDt r.datetime, renderOptStr r.request, renderOptStr r.url,
   r.status_code, String.intercalate " " r.user_agent]

def accessCsv (rs : List AccessRecord) : CsvFile :=
  { header := ["ip", "datetime", "request", "url", "status_code", "user_agent"],
    rows := rs.map accessCsvRow }

def errorCsvRow (r : ErrorRecord) : List String :=
  [renderOptDt r.date_time, r.error_level, r.process_id, r.message,
   r.client_ip, r.server, r.request, r.host]

def errorCsv (rs : List ErrorRecord) : CsvFile :=
  { header := ["date_time", "error_level", "process_id", "message",
               "client_ip", "server", "request", "host"],
    rows := rs.map errorCsvRow }

/-- The local file system for exports, newest write first. -/
abbrev Fs := List (String × CsvFile)

/-- `DataFrame.to_csv(path)`: an overwriting write (`open(path, "w")`). -/
def fsWrite (fs : Fs) (path : String) (c : CsvFile) : Fs :=
  (path, c) :: fs

/-- Reading back an exported file: the newest write to the path wins. -/
def fsRead : Fs → String → Option CsvFile
  | [], _ => none
  | e :: rest, path => if e.1 = path then some e.2 else fsRead rest path

/-- `parse_all_files`: parse and concatenate the discovered access files,
export them, then do the same for the error files.  There is no per-file
exception handling: a failing file aborts the whole batch before any further
file is parsed, and an aborted batch writes nothing. -/
def parse_all_files (accessFiles errorFiles : List (Option (List String)))
    (fs : Fs) (accessPath errorPath : String) : Except PErr Fs := do
  let allAccess ← all_access_records accessFiles
  let fs1 := fsWrite fs accessPath (accessCsv allAccess)
  let allError ← all_error_records errorFiles
  return fsWrite fs1 errorPath (errorCsv allError)

/-! ## `log_download` (`script/log_download.py`, lines 29-111)

Only the control flow around the `try/finally` matters here: the SFTP calls
are modelled by their outcomes (`listdir` either returns the file list or
raises `FileNotFoundError`; `sftp.get` on a file either succeeds or raises,
given by `getOk`). -/

/-- The local variables of `log_download` that the `finally` block reads:
`none` means the name has not been assigned on the path taken. -/
structure DlLocals where
  files : Option (List String)
  files_downloaded : Option Nat
deriving Repr, DecidableEq

/-- How the call to `log_download` ends. -/
inductive DlResult where
  | ret
  | unboundLocalError
deriving Repr, DecidableEq

/-- The download loop (source lines 69-101): `files_downloaded += 1` runs
whenever the per-file `try` body reaches it, i.e. when `sftp.get` did not
raise -- including for a file matching neither name prefix, where no download
is attempted at all. -/
def downloadLoop (getOk : String → Bool) (files : List String) : Nat :=
  files.foldl (fun fd file =>
    if file.startsWith "access" ∨ file.startsWith "error" then
      if getOk file then fd + 1 else fd
    else fd + 1) 0

/-- The outer `try` body (source lines 57-101).  On the
`FileNotFoundError` path of `sftp.listdir` the handler logs and starts an
early `return`, with neither `files` nor `files_downloaded` ever assigned. -/
def dlTryBody (listdir : Except Unit (List String)) (getOk : String → Bool) : DlLocals :=
  match listdir with
  | Except.error _ => { files := none, files_downloaded := none }
  | Except.ok fs => { files := some fs, files_downloaded := some (downloadLoop getOk fs) }

/-- The `finally` block (source lines 102-111).  Its first statement
interpolates `files_downloaded` into a log string; reading an unassigned
local raises `UnboundLocalError`, which replaces the pending early return. -/
def dlFinally (l : DlLocals) : DlResult :=
  match l.files_downloaded with
  | none => DlResult.unboundLocalError
  | some _ =>
    match l.files with
    | none => DlResult.unboundLocalError
    | some _ => DlResult.ret

/-- `log_download` after the SFTP session opens: run the `try` body, then the
`finally` block decides how the call ends. -/
def log_download (listdir : Except Unit (List String)) (getOk : String → Bool) : DlResult :=
  dlFinally (dlTryBody listdir getOk)

/-! ## Sample inputs and their parses, used to instantiate the theorems -/

def sampleFooLine : String :=
  "y - - [29/Sep/2024:00:24:27 +0200] \"FOO bar HTTP/1.1\" 500 1 \"-\" \"ua\""

def sampleFooRec : AccessRecord :=
  { ip := "y", datetime := some ⟨2024, 9, 29, 0, 24, 27⟩, request := none,
    url := some "FOO bar HTTP/1.1", status_code := "500", user_agent := ["ua", ""] }

def sampleHeadLine : String :=
  "b - - [29/Sep/2024:08:00:01 +0200] \"HEAD /w HTTP/1.1\" 204 0 \"-\" \"probe\""

def sampleHeadRec : AccessRecord :=
  { ip := "b", datetime := some ⟨2024, 9, 29, 8, 0, 1⟩, request := some "HEAD",
    url := some "/w", status_code := "204", user_agent := ["probe", ""] }

def sampleGetLine : String :=
  "c - - [01/Jan/2025:00:00:00 +0100] \"GET /a HTTP/1.1\" 200 1 \"-\" \"u1\""

def sampleGetRec : AccessRecord :=
  { ip := "c", datetime := some ⟨2025, 1, 1, 0, 0, 0⟩, request := some "GET",
    url := some "/a", status_code := "200", user_agent := ["u1", ""] }

def samplePutLine : String :=
  "d - - [02/Jan/2025:00:00:00 +0100] \"PUT /b HTTP/1.1\" 201 2 \"-\" \"u2\""

def samplePutRec : AccessRecord :=
  { ip := "d", datetime := some ⟨2025, 1, 2, 0, 0, 0⟩, request := some "PUT",
    url := some "/b", status_code := "201", user_agent := ["u2", ""] }

def sampleDelLine : String :=
  "e - - [03/Feb/2025:12:30:00 +0100] \"DELETE /c HTTP/1.1\" 204 0 \"-\" \"u3\""

def sampleDelRec : AccessRecord :=
  { ip := "e", datetime := some ⟨2025, 2, 3, 12, 30, 0⟩, request := some "DELETE",
    url := some "/c", status_code := "204", user_agent := ["u3", ""] }

def sampleErrLine1 : String :=
  "2025/03/01 01:02:03 [error] 9#9, msg: a, client: b, server: c, request: d, host: e"

def sampleErrRec1 : ErrorRecord :=
  { date_time := some ⟨2025, 3, 1, 1, 2, 3⟩, error_level := "error", process_id := "9",
    message := "a", client_ip := "b", server := "c", request := "d", host := "e" }

def sampleErrLine2 : String :=
  "2025/03/02 04:05:06 [warn] 8#8, msg: f, client: g, server: h, request: i, host: j"

def sampleErrRec2 : ErrorRecord :=
  { date_time := some ⟨2025, 3, 2, 4, 5, 6⟩, error_level := "warn", process_id := "8",
    message := "f", client_ip := "g", server := "h", request := "i", host := "j" }

/-- The file-system state after an empty-batch run of `parse_all_files`
targeting `access.csv` / `error.csv`. -/
def sampleFs1 : Fs := [("error.csv", errorCsv []), ("access.csv", accessCsv [])]

/-- The file-system state after a second run whose access batch is
`[sampleDelRec]`, on top of `sampleFs1`. -/
def sampleFs2 : Fs :=
  ("error.csv", errorCsv []) :: ("access.csv", accessCsv [sampleDelRec]) :: sampleFs1

/-! ## Helper lemmas -/

@[simp] theorem exc_bind_ok {ε α β : Type} (a : α) (f : α → Except ε β) :
    Bind.bind (Except.ok a : Except ε α) f = f a := rfl

@[simp] theorem exc_bind_error {ε α β : Type} (e : ε) (f : α → Except ε β) :
    Bind.bind (Except.error e : Except ε α) f = Except.error e := rfl

@[simp] theorem exc_pure {ε α : Type} (a : α) : (pure a : Except ε α) = Except.ok a := rfl

@[simp] theorem exc_bind_eq_ok {ε α β : Type} {m : Except ε α} {f : α → Except ε β} {b : β} :
    Bind.bind m f = Except.ok b ↔ ∃ a, m = Except.ok a ∧ f a = Except.ok b := by
  cases m <;> simp

@[simp] theorem exc_map_eq_ok {ε α β : Type} {g : α → β} {m : Except ε α} {b : β} :
    (g <$> m : Except ε β) = Except.ok b ↔ ∃ a, m = Except.ok a ∧ g a = b := by
  cases m <;> simp

theorem pyIdx_ok_iff {α : Type} {xs : List α} {i : Nat} {a : α} :
    pyIdx xs i = Except.ok a ↔ xs.get? i = some a := by
  unfold pyIdx
  cases h : xs.get? i <;> simp

theorem getD_eq_of_get? {α : Type} {xs : List α} {i : Nat} {a : α} (dflt : α)
    (h : xs.get? i = some a) : xs.getD i dflt = a := by
  simp [List.getD_eq_getElem?_getD, ← List.get?_eq_getElem?, h]

theorem splitOn_eq_single {c : Char} {s : List Char} (h : c ∉ s) :
    s.splitOn c = [s] := by
  apply List.splitOnP_eq_single
  intro x hx
  simp only [beq_iff_eq]
  exact fun e => h (e ▸ hx)

theorem splitOn_first {c : Char} {a : List Char} (b : List Char) (h : c ∉ a) :
    (a ++ c :: b).splitOn c = a :: b.splitOn c :=
  List.splitOnP_first (· == c) a
    (fun x hx => by simp only [beq_iff_eq]; exact fun e => h (e ▸ hx)) c (by simp) b

theorem splitOn_sep_cons (c : Char) (s : List Char) :
    (c :: s).splitOn c = [] :: s.splitOn c := by
  show (c :: s).splitOnP (· == c) = _
  rw [List.splitOnP_cons]
  simp [List.splitOn]

theorem splitOn_append_left {c : Char} {a : List Char} (s : List Char) (h : c ∉ a) :
    (a ++ s).splitOn c = (s.splitOn c).modifyHead (a ++ ·) := by
  induction a with
  | nil =>
    cases hsp : s.splitOn c with
    | nil => exact absurd hsp (List.splitOnP_ne_nil _ s)
    | cons hd tl => simp [hsp]
  | cons x xs ih =>
    rw [List.mem_cons] at h
    push_neg at h
    obtain ⟨h1, h2⟩ := h
    show ((x :: (xs ++ s)).splitOnP (· == c)) = _
    rw [List.splitOnP_cons, if_neg (by simp only [beq_iff_eq]; exact fun e => h1 e.symm)]
    rw [show (xs ++ s).splitOnP (· == c) = (xs ++ s).splitOn c from rfl, ih h2]
    cases hsp : s.splitOn c with
    | nil => exact absurd hsp (List.splitOnP_ne_nil _ s)
    | cons hd tl => simp [hsp]

/-- What a successful access-line parse contains: each field of the record,
and the `errors` increment, in terms of the splits of the line. -/
theorem processAccessLine_ok {line : String} {r : AccessRecord} {d : Nat}
    (h : processAccessLine line = Except.ok (r, d)) :
    r.ip = (pySplit1 ' ' (pySplit1 '"' line).headI).headI ∧
    r.datetime = parseAccessTs ((pySplit1 ' ' (pySplit1 '"' line).headI).getD 3 "") ∧
    r.request = (accessRule (pySplit1 '"' line)).1 ∧
    r.url = (accessRule (pySplit1 '"' line)).2.1 ∧
    d = (accessRule (pySplit1 '"' line)).2.2 ∧
    r.user_agent = (pySplit1 '"' line).drop 5 ∧
    r.status_code = (pySplit1 ' ' ((pySplit1 '"' line).getD 2 "")).getD 1 "" := by
  unfold processAccessLine at h
  dsimp only at h
  cases e1 : pyIdx (pySplit1 ' ' (pySplit1 '"' line).headI) 3 with
  | error e => rw [e1] at h; simp at h
  | ok dtTok =>
    rw [e1] at h
    simp only [exc_bind_ok] at h
    cases e2 : pyIdx (pySplit1 '"' line) 2 with
    | error e => rw [e2] at h; simp at h
    | ok p2 =>
      rw [e2] at h
      simp only [exc_bind_ok] at h
      cases e3 : pyIdx (pySplit1 ' ' p2) 1 with
      | error e => rw [e3] at h; simp at h
      | ok sc =>
        rw [e3] at h
        simp only [Except.map_ok, exc_bind_ok, exc_pure, Except.ok.injEq,
          Prod.mk.injEq] at h
        obtain ⟨rfl, rfl⟩ := h
        refine ⟨rfl, ?_, rfl, rfl, rfl, rfl, ?_⟩
        · rw [getD_eq_of_get? "" (pyIdx_ok_iff.mp e1)]
        · rw [getD_eq_of_get? "" (pyIdx_ok_iff.mp e2),
              getD_eq_of_get? "" (pyIdx_ok_iff.mp e3)]

/-- A successful error-line parse gets its timestamp from the first two
whitespace tokens of `parts[0]`, fed through the coercing format parse. -/
theorem processErrorLine_ok_dt {line : String} {r : ErrorRecord}
    (h : processErrorLine line = Except.ok r) :
    r.date_time = parseErrorTs ((pySplit1 ' ' (pySplit2 ',' ' ' line).headI).headI ++ " " ++
      (pySplit1 ' ' (pySplit2 ',' ' ' line).headI).getD 1 "") := by
  unfold processErrorLine at h
  dsimp only at h
  simp only [exc_bind_eq_ok, exc_map_eq_ok, exc_pure, Except.ok.injEq] at h
  obtain ⟨t1, ht1, t2, ht2, t3, ht3, pid, hpid, p1, hp1, msgRaw, hmsg, p2, hp2, cip,
    hcip, p3, hp3, srv, hsrv, p4, hp4, req, hreq, p5, hp5, hst, hhst, hrec⟩ := h
  subst hrec
  rw [getD_eq_of_get? "" (pyIdx_ok_iff.mp ht1)]


/-- C1: the spec says every line of an access-log file yields exactly one
record and per-line malformed content never raises.  The code contradicts its
own malformed-line accounting: a line without quotes is handled at lines
79-85 (nulls appended, two malformed units counted), but the unconditional
`parts[2].split(' ')[1]` at line 97 then raises `IndexError`, aborting the
whole file parse with no records at all. -/
theorem c1_quoteless_line_aborts :
    parse_access_log_file
      (some ["203.0.113.7 - - [29/Sep/2024:00:24:27 +0200] GET /path HTTP/1.1 404 162"]) =
      Except.error PErr.indexError := rfl

/-- C5: for a line with no quote-delimited segment the spec says the record
has null method and url and the malformed counter increases by 2.  The code
indeed computes exactly that request/url/errors triple (first conjunct), but
then raises `IndexError` on `parts[2]`, so no record is ever produced for
such a line (second conjunct). -/
theorem c5_no_quotes_crash :
    accessRule (pySplit1 '"' "198.51.100.9 - - [29/Sep/2024:00:24:27 +0200] 404") =
      (none, none, 2) ∧
    processAccessLine "198.51.100.9 - - [29/Sep/2024:00:24:27 +0200] 404" =
      Except.error PErr.indexError :=
  ⟨rfl, rfl⟩

/-- C2 counterexample: the claim says `parse_error_log` never aborts on a
line that does not fit the grammar.  On a line with a single `", "`-field the
unguarded `parts[1]` raises `IndexError` and the file parse aborts. -/
theorem c2_short_line_raises :
    parse_error_log (some ["2024/09/29 10:15:03 [error] 123#0: unexpected"]) =
      Except.error PErr.indexError := rfl

/-- C2 (amended): for a line with six or more `", "`-separated fields whose
sub-fields contain the expected separators, `parse_error_log` extracts
timestamp, error level, process id, message, client IP, server, request and
host by the fixed positional splits; a line that does not fit this shape
raises `IndexError` instead of producing a record. -/
theorem c2_positional_extraction
    (line p0 p1 p2 p3 p4 p5 : String) (prest : List String)
    (t0 t1 t2 t3 : String) (trest : List String)
    (u0 u1 : String) (urest : List String)
    (v0 v1 : String)
    (w0 w1 : String) (wrest : List String)
    (a0 a1 : String) (arest : List String)
    (b0 b1 : String) (brest : List String)
    (c0 c1 : String) (crest : List String)
    (hp : pySplit2 ',' ' ' line = p0 :: p1 :: p2 :: p3 :: p4 :: p5 :: prest)
    (ht : pySplit1 ' ' p0 = t0 :: t1 :: t2 :: t3 :: trest)
    (hu : pySplit1 '#' t3 = u0 :: u1 :: urest)
    (hv : pySplitMax1 ':' p1 = [v0, v1])
    (hw : pySplit2 ':' ' ' p2 = w0 :: w1 :: wrest)
    (ha : pySplit2 ':' ' ' p3 = a0 :: a1 :: arest)
    (hb : pySplit2 ':' ' ' p4 = b0 :: b1 :: brest)
    (hc : pySplit2 ':' ' ' p5 = c0 :: c1 :: crest) :
    processErrorLine line = Except.ok
      { date_time := parseErrorTs (t0 ++ " " ++ t1), error_level := pyStripChars "[]" t2,
        process_id := u1, message := pyStrip v1, client_ip := w1,
        server := a1, request := b1, host := c1 } := by
  unfold processErrorLine
  dsimp only
  rw [hp]
  simp [ht, hu, hv, hw, ha, hb, hc, List.headI]

/-- C2 witness: the amended theorem applied to a concrete six-field line. -/
theorem c2_positional_extraction_witness :
    processErrorLine "2025/01/31 23:59:59 [crit] 45#6, msg: disk full, client: 10.1.1.1, server: srv1, request: POST /u, host: h1" =
      Except.ok { date_time := some ⟨2025, 1, 31, 23, 59, 59⟩, error_level := "crit",
                  process_id := "6", message := "disk full", client_ip := "10.1.1.1",
                  server := "srv1", request := "POST /u", host := "h1" } :=
  c2_positional_extraction
    "2025/01/31 23:59:59 [crit] 45#6, msg: disk full, client: 10.1.1.1, server: srv1, request: POST /u, host: h1"
    "2025/01/31 23:59:59 [crit] 45#6" "msg: disk full" "client: 10.1.1.1" "server: srv1"
    "request: POST /u" "host: h1" []
    "2025/01/31" "23:59:59" "[crit]" "45#6" []
    "45" "6" []
    "msg" " disk full"
    "client" "10.1.1.1" []
    "server" "srv1" []
    "request" "POST /u" []
    "host" "h1" []
    rfl rfl rfl rfl rfl rfl rfl rfl

/-- C3 counterexample: the claim says one unreadable file is reported and the
batch continues with the remaining files.  With an unreadable first file and
a perfectly good second file, `parse_all_files` instead propagates
`FileNotFoundError`: the batch aborts, the second file contributes nothing
and no export is written. -/
theorem c3_one_bad_file_kills_batch :
    parse_all_files
      [none, some ["x - - [29/Sep/2024:00:24:27 +0200] \"GET / HTTP/1.1\" 200 5 \"-\" \"ua\""]]
      [] [] "access.csv" "error.csv" = Except.error PErr.fileNotFound := rfl

/-- C3 (amended): a missing or unreadable source file is fatal for the whole
batch, not just for that file: `parse_all_files` has no per-file exception
handling, so the open failure propagates, no later file is parsed, and no
export is written. -/
theorem c3_missing_file_aborts_batch
    (rest errorFiles : List (Option (List String))) (fs : Fs) (ap ep : String) :
    parse_all_files (none :: rest) errorFiles fs ap ep =
      Except.error PErr.fileNotFound := by
  simp [parse_all_files, all_access_records, parse_access_log_file]

/-- C4: for a line whose first quote-delimited segment splits into two or
more tokens, the record produced for it has: the first token as http method
and the join of the middle tokens as url with no malformed increment, when
the first token is a recognized method; and a null method, the full joined
segment as url and exactly one malformed unit otherwise. -/
theorem c4_method_decision (line : String) (r : AccessRecord) (d : Nat)
    (hok : processAccessLine line = Except.ok (r, d))
    (hq : 1 < (pySplit1 '"' line).length)
    (hlp : 1 < (pySplit1 ' ' ((pySplit1 '"' line).getD 1 "")).length) :
    ((pySplit1 ' ' ((pySplit1 '"' line).getD 1 "")).headI ∈ httpMethods →
       r.request = some (pySplit1 ' ' ((pySplit1 '"' line).getD 1 "")).headI ∧
       r.url = some (String.intercalate " "
         (((pySplit1 ' ' ((pySplit1 '"' line).getD 1 "")).drop 1).dropLast)) ∧
       d = 0) ∧
    ((pySplit1 ' ' ((pySplit1 '"' line).getD 1 "")).headI ∉ httpMethods →
       r.request = none ∧
       r.url = some (String.intercalate " " (pySplit1 ' ' ((pySplit1 '"' line).getD 1 ""))) ∧
       d = 1) := by
  obtain ⟨-, -, hreq, hurl, hd, -, -⟩ := processAccessLine_ok hok
  constructor <;> intro hm
  · rw [hreq, hurl, hd]
    unfold accessRule
    dsimp only
    rw [if_pos hq, if_pos hlp, if_pos hm]
    exact ⟨rfl, rfl, rfl⟩
  · rw [hreq, hurl, hd]
    unfold accessRule
    dsimp only
    rw [if_pos hq, if_pos hlp, if_neg hm]
    exact ⟨rfl, rfl, rfl⟩

/-- C4 witness: the unrecognized-method branch on a concrete line whose first
quoted token is `FOO`: null method, the raw joined segment kept as url, and
one malformed unit. -/
theorem c4_method_decision_witness :
    sampleFooRec.request = none ∧
    sampleFooRec.url = some (String.intercalate " "
      (pySplit1 ' ' ((pySplit1 '"' sampleFooLine).getD 1 ""))) ∧
    (1 : Nat) = 1 :=
  (c4_method_decision sampleFooLine sampleFooRec 1 rfl (by decide) (by decide)).2 (by decide)

/-- C6: a timestamp that does not parse yields a null timestamp without
aborting the line and without touching the malformed counter.  In any
produced access record the timestamp field is the coercing parse (format
`[%d/%b/%Y:%H:%M:%S`) of the fourth pre-quote token, and the malformed
increment is `accessRule`, a function of the quote structure alone; the
error tokenizer likewise coerces (format `%Y/%m/%d %H:%M:%S`) and has no
malformed counter at all.  Concrete contrast pairs show a good and a bad
timestamp string, and full lines with unparseable timestamps that still
produce records with null timestamps and unchanged counters. -/
theorem c6_timestamp_coercion :
    (∀ (line : String) (r : AccessRecord) (d : Nat),
        processAccessLine line = Except.ok (r, d) →
        r.datetime = parseAccessTs ((pySplit1 ' ' (pySplit1 '"' line).headI).getD 3 "") ∧
        d = (accessRule (pySplit1 '"' line)).2.2) ∧
    (∀ (line : String) (r : ErrorRecord),
        processErrorLine line = Except.ok r →
        r.date_time = parseErrorTs ((pySplit1 ' ' (pySplit2 ',' ' ' line).headI).headI ++ " " ++
          (pySplit1 ' ' (pySplit2 ',' ' ' line).headI).getD 1 "")) ∧
    parseAccessTs "[29/Sep/2024:00:24:27" = some ⟨2024, 9, 29, 0, 24, 27⟩ ∧
    parseAccessTs "[99/Sep/2024:00:24:27" = none ∧
    parseErrorTs "2024/09/29 10:15:03" = some ⟨2024, 9, 29, 10, 15, 3⟩ ∧
    parseErrorTs "not a timestamp" = none ∧
    processAccessLine "a - - [bad_ts x] \"GET /q HTTP/1.1\" 200 7 \"-\" \"agent\"" =
      Except.ok ({ ip := "a", datetime := none, request := some "GET", url := some "/q",
                   status_code := "200", user_agent := ["agent", ""] }, 0) ∧
    processErrorLine "9999/99/99 10:15:03 [warn] 7#1, note: x, client: c, server: s, request: r, host: h" =
      Except.ok { date_time := none, error_level := "warn", process_id := "1",
                  message := "x", client_ip := "c", server := "s", request := "r",
                  host := "h" } :=
  ⟨fun _ _ _ h => ⟨(processAccessLine_ok h).2.1, (processAccessLine_ok h).2.2.2.2.1⟩,
   fun _ _ h => processErrorLine_ok_dt h,
   rfl, rfl, rfl, rfl, rfl, rfl⟩

/-- C6 witness: the access part of the theorem applied to a concrete line. -/
theorem c6_timestamp_coercion_witness :
    sampleHeadRec.datetime =
      parseAccessTs ((pySplit1 ' ' (pySplit1 '"' sampleHeadLine).headI).getD 3 "") ∧
    (0 : Nat) = (accessRule (pySplit1 '"' sampleHeadLine)).2.2 :=
  c6_timestamp_coercion.1 sampleHeadLine sampleHeadRec 0 rfl

/-- C8: aggregation preserves file order and line order: if two files parse
to row lists r1 and r2, the combined table is exactly r1 followed by r2, with
no deduplication and no re-sorting; likewise for error files. -/
theorem c8_aggregation_order :
    (∀ (f1 f2 : List String) (r1 : List AccessRecord) (n1 : Nat)
        (r2 : List AccessRecord) (n2 : Nat),
        parse_access_log_file (some f1) = Except.ok (r1, n1) →
        parse_access_log_file (some f2) = Except.ok (r2, n2) →
        all_access_records [some f1, some f2] = Except.ok (r1 ++ r2)) ∧
    (∀ (g1 g2 : List String) (s1 s2 : List ErrorRecord),
        parse_error_log (some g1) = Except.ok s1 →
        parse_error_log (some g2) = Except.ok s2 →
        all_error_records [some g1, some g2] = Except.ok (s1 ++ s2)) := by
  constructor
  · intro f1 f2 r1 n1 r2 n2 h1 h2
    simp [all_access_records, h1, h2]
  · intro g1 g2 s1 s2 h1 h2
    simp [all_error_records, h1, h2]

/-- C8 witness: two concrete one-line files, concatenated in order. -/
theorem c8_aggregation_order_witness :
    all_access_records [some [sampleGetLine], some [samplePutLine]] =
      Except.ok ([sampleGetRec] ++ [samplePutRec]) :=
  c8_aggregation_order.1 [sampleGetLine] [samplePutLine] [sampleGetRec] 0 [samplePutRec] 0
    rfl rfl

/-- C10: when the remote directory listing raises `FileNotFoundError`, the
`finally` block runs before the early return and reads `files_downloaded`,
which was never assigned on that path, so `log_download` ends in
`UnboundLocalError` rather than returning cleanly. -/
theorem c10_listdir_error_unbound_local (getOk : String → Bool) :
    (dlTryBody (Except.error ()) getOk).files_downloaded = none ∧
    log_download (Except.error ()) getOk = DlResult.unboundLocalError ∧
    log_download (Except.error ()) getOk ≠ DlResult.ret :=
  ⟨rfl, rfl, by simp [log_download, dlTryBody, dlFinally]⟩

/-- C9: re-running the export pipeline with the same output path overwrites
the previous export: after a second run on top of any earlier file-system
state, the access CSV at the path holds exactly the second batch, one data
row per record of that batch alone. -/
theorem c9_export_overwrite
    (fs : Fs) (files1 files2 errFiles1 errFiles2 : List (Option (List String)))
    (ap ep : String) (fs1 fs2 : Fs) (rs2 : List AccessRecord)
    (hne : ap ≠ ep)
    (_h1 : parse_all_files files1 errFiles1 fs ap ep = Except.ok fs1)
    (h2 : all_access_records files2 = Except.ok rs2)
    (h3 : parse_all_files files2 errFiles2 fs1 ap ep = Except.ok fs2) :
    fsRead fs2 ap = some (accessCsv rs2) ∧
    (accessCsv rs2).rows.length = rs2.length := by
  unfold parse_all_files at h3
  dsimp only at h3
  rw [h2] at h3
  simp only [exc_bind_ok, exc_bind_eq_ok, exc_pure, Except.ok.injEq] at h3
  obtain ⟨es, hes, hfs2⟩ := h3
  subst hfs2
  refine ⟨?_, by simp [accessCsv]⟩
  simp [fsRead, fsWrite, Ne.symm hne]

/-- C9 witness: an empty first run followed by a one-record second run into
the same paths; the access CSV holds exactly the one row of the second run. -/
theorem c9_export_overwrite_witness :
    fsRead sampleFs2 "access.csv" = some (accessCsv [sampleDelRec]) ∧
    (accessCsv [sampleDelRec]).rows.length = [sampleDelRec].length :=
  c9_export_overwrite [] [] [some [sampleDelLine]] [] [] "access.csv" "error.csv"
    sampleFs1 sampleFs2 [sampleDelRec] (by decide) rfl rfl rfl

/-- Quote-splitting of the well-formed template line, for any client token and
url token free of quotes. -/
theorem c7_parts (x p : String) (hxq : '"' ∉ x.data) (hpq : '"' ∉ p.data) :
    pySplit1 '"' (x ++ " - - [29/Sep/2024:00:24:27 +0200] \"GET " ++ p ++
        " HTTP/1.1\" 404 162 \"-\" \"Go-http-client/1.1\"") =
      [x ++ " - - [29/Sep/2024:00:24:27 +0200] ", "GET " ++ p ++ " HTTP/1.1",
       " 404 162 ", "-", " ", "Go-http-client/1.1", ""] := by
  unfold pySplit1
  have hd : (x ++ " - - [29/Sep/2024:00:24:27 +0200] \"GET " ++ p ++
      " HTTP/1.1\" 404 162 \"-\" \"Go-http-client/1.1\"").data =
      (x.data ++ (" - - [29/Sep/2024:00:24:27 +0200] ").data) ++ '"' ::
        (("GET ").data ++ (p.data ++ ((" HTTP/1.1").data ++ '"' ::
          ((" 404 162 ").data ++ '"' :: (("-").data ++ '"' ::
            ((" ").data ++ '"' :: (("Go-http-client/1.1").data ++ '"' :: ([] : List Char)))))))) := by
    simp [String.data_append, List.append_assoc]
  rw [hd]
  have hA : '"' ∉ x.data ++ (" - - [29/Sep/2024:00:24:27 +0200] ").data := by
    simp only [List.mem_append]
    push_neg
    exact ⟨hxq, by decide⟩
  rw [splitOn_first _ hA]
  rw [splitOn_append_left _ (show '"' ∉ ("GET ").data by decide)]
  rw [splitOn_append_left _ hpq]
  rw [splitOn_first _ (show '"' ∉ (" HTTP/1.1").data by decide)]
  rw [show ((" 404 162 ").data ++ '"' :: (("-").data ++ '"' ::
      ((" ").data ++ '"' :: (("Go-http-client/1.1").data ++ '"' :: ([] : List Char))))).splitOn '"' =
      [(" 404 162 ").data, ("-").data, (" ").data, ("Go-http-client/1.1").data, []] from rfl]
  simp [String.ext_iff, String.data_append, List.append_assoc]

/-- Whitespace-splitting of the pre-quote text of the template line. -/
theorem c7_tok0 (x : String) (hxs : ' ' ∉ x.data) :
    pySplit1 ' ' (x ++ " - - [29/Sep/2024:00:24:27 +0200] ") =
      [x, "-", "-", "[29/Sep/2024:00:24:27", "+0200]", ""] := by
  unfold pySplit1
  have hd : (x ++ " - - [29/Sep/2024:00:24:27 +0200] ").data =
      x.data ++ (' ' :: ("- - [29/Sep/2024:00:24:27 +0200] ").data) := by
    simp [String.data_append]
  rw [hd]
  rw [splitOn_append_left _ hxs, splitOn_sep_cons]
  rw [show (("- - [29/Sep/2024:00:24:27 +0200] ").data).splitOn ' ' =
      [("-").data, ("-").data, ("[29/Sep/2024:00:24:27").data, ("+0200]").data, []] from rfl]
  simp [String.ext_iff]

/-- Whitespace-splitting of the first quoted segment of the template line. -/
theorem c7_logpart (p : String) (hps : ' ' ∉ p.data) :
    pySplit1 ' ' ("GET " ++ p ++ " HTTP/1.1") = ["GET", p, "HTTP/1.1"] := by
  unfold pySplit1
  have hd : ("GET " ++ p ++ " HTTP/1.1").data =
      ("GET").data ++ ' ' :: (p.data ++ ' ' :: ("HTTP/1.1").data) := by
    simp [String.data_append, List.append_assoc]
  rw [hd]
  rw [splitOn_first _ (show ' ' ∉ ("GET").data by decide)]
  rw [splitOn_append_left _ hps, splitOn_sep_cons]
  rw [show (("HTTP/1.1").data).splitOn ' ' = [("HTTP/1.1").data] from rfl]
  simp [String.ext_iff]

/-- C7: for every well-formed access-log line of the given shape (any
quote-free, space-free client token `x` and url token `p`), the record has
http_method GET, url `p`, status_code 404 (second token of the third quoted
segment), client_ip `x`, a non-null timestamp, and user_agent equal to the
quote-delimited segments from the sixth onward. -/
theorem c7_wellformed_shape (x p : String)
    (hxq : '"' ∉ x.data) (hxs : ' ' ∉ x.data)
    (hpq : '"' ∉ p.data) (hps : ' ' ∉ p.data) :
    processAccessLine (x ++ " - - [29/Sep/2024:00:24:27 +0200] \"GET " ++ p ++
        " HTTP/1.1\" 404 162 \"-\" \"Go-http-client/1.1\"") =
      Except.ok ({ ip := x, datetime := some ⟨2024, 9, 29, 0, 24, 27⟩,
                   request := some "GET", url := some p, status_code := "404",
                   user_agent := ["Go-http-client/1.1", ""] }, 0) ∧
    ["Go-http-client/1.1", ""] =
      (pySplit1 '"' (x ++ " - - [29/Sep/2024:00:24:27 +0200] \"GET " ++ p ++
        " HTTP/1.1\" 404 162 \"-\" \"Go-http-client/1.1\"")).drop 5 := by
  have hparts := c7_parts x p hxq hpq
  have htok0 := c7_tok0 x hxs
  have hlp := c7_logpart p hps
  have harr : accessRule [x ++ " - - [29/Sep/2024:00:24:27 +0200] ",
      "GET " ++ p ++ " HTTP/1.1", " 404 162 ", "-", " ", "Go-http-client/1.1", ""] =
      (some "GET", some p, 0) := by
    unfold accessRule
    dsimp only
    rw [if_pos (by simp)]
    rw [show ([x ++ " - - [29/Sep/2024:00:24:27 +0200] ", "GET " ++ p ++ " HTTP/1.1",
        " 404 162 ", "-", " ", "Go-http-client/1.1", ""].getD 1 "") =
        "GET " ++ p ++ " HTTP/1.1" from rfl]
    rw [hlp]
    rw [if_pos (by simp)]
    rw [if_pos (show (["GET", p, "HTTP/1.1"] : List String).headI ∈ httpMethods from by
      simp [List.headI, httpMethods])]
    rfl
  refine ⟨?_, by rw [hparts]; rfl⟩
  unfold processAccessLine
  dsimp only
  rw [hparts]
  simp only [List.headI]
  rw [htok0, harr]
  simp only [pyIdx_cons_succ, pyIdx_cons_zero, exc_bind_ok]
  rw [show pySplit1 ' ' " 404 162 " = ["", "404", "162", ""] from rfl]
  simp only [pyIdx_cons_succ, pyIdx_cons_zero, exc_bind_ok, exc_pure]
  rfl


/-- C7 witness: the template theorem applied at the spec's own example line
`x - - [29/Sep/2024:00:24:27 +0200] "GET /path HTTP/1.1" 404 162 "-"
"Go-http-client/1.1"`. -/
theorem c7_wellformed_shape_witness :
    processAccessLine "x - - [29/Sep/2024:00:24:27 +0200] \"GET /path HTTP/1.1\" 404 162 \"-\" \"Go-http-client/1.1\"" =
      Except.ok ({ ip := "x", datetime := some ⟨2024, 9, 29, 0, 24, 27⟩,
                   request := some "GET", url := some "/path", status_code := "404",
                   user_agent := ["Go-http-client/1.1", ""] }, 0) :=
  (c7_wellformed_shape "x" "/path" (by decide) (by decide) (by decide) (by decide)).1

end LogSentry
